import Mathlib

/-!
Shallow embedding of `src/audio_unit/macos_helpers.rs` from HEnquist/coreaudio-rs.

Floating-point sample rates (`f64`) are embedded as rationals; the Rust
numeric casts `as u32` / `as usize` (truncation toward zero, saturating)
are embedded explicitly.  Platform calls (CoreAudio property get/set,
listener add/remove) are embedded by passing the platform's responses in
as explicit inputs and recording the sequence of issued calls in an
output log, so the protocol's control flow is a pure function.
-/

/-- Platform property selector, from the external sys crate (four-char code for nsrt). -/
def kAudioDevicePropertyNominalSampleRate : Nat := 0x6e737274

/-- Platform property selector, from the external sys crate (four-char code for nsr#). -/
def kAudioDevicePropertyAvailableNominalSampleRates : Nat := 0x6e737223

/-- Platform property selector, from the external sys crate (four-char code for pft followed by a space). -/
def kAudioStreamPropertyPhysicalFormat : Nat := 0x70667420

/-- Platform scope constant, from the external sys crate (four-char code for glob). -/
def kAudioObjectPropertyScopeGlobal : Nat := 0x676c6f62

/-- Platform element constant, from the external sys crate. -/
def kAudioObjectPropertyElementMaster : Nat := 0

/-- Modelled from the spec: the crate error type `crate::error::Error` lives in a
module that is not part of the provided sources.  Per the spec's error taxonomy,
a platform call reporting a non-success status is wrapped with the raw status
code preserved (`Error::Unknown(status)`), and there is a dedicated
unsupported-sample-rate error used both for a rate missing from the supported
set and for reconfiguration that did not converge before the deadline. -/
inductive Err where
  | unknown (status : Int)
  | unsupportedSampleRate
deriving DecidableEq, Repr

/-- Modelled from the spec: `Error::from_os_status` is declared outside the
provided sources.  Per the spec, the no-error status (0) is success and any
other status becomes a domain error wrapping the raw status code. -/
def from_os_status (status : Int) : Except Err Unit :=
  if status = 0 then Except.ok () else Except.error (Err.unknown status)

/-- Rust `f64 as`-cast to a `w`-bit unsigned integer: truncation toward zero,
saturating at 0 below and at 2 ^ w - 1 above. -/
def f64_as_uint (w : Nat) (q : Rat) : Nat :=
  if q ≤ 0 then 0 else min (q.num.toNat / q.den) (2 ^ w - 1)

/-- Rust `as u32` on a sample-rate value. -/
def f64_as_u32 (q : Rat) : Nat := f64_as_uint 32 q

/-- Rust `as usize` on a sample-rate value (64-bit target). -/
def f64_as_usize (q : Rat) : Nat := f64_as_uint 64 q

/-- A property address triple, as in the sys crate. -/
structure AudioObjectPropertyAddress where
  mSelector : Nat
  mScope : Nat
  mElement : Nat
deriving DecidableEq, Repr

/-- A supported sample-rate range, as in the sys crate (`AudioValueRange`). -/
structure AudioValueRange where
  mMinimum : Rat
  mMaximum : Rat
deriving DecidableEq, Repr

/-- A stream format descriptor, as in the sys crate (`AudioStreamBasicDescription`). -/
structure AudioStreamBasicDescription where
  mSampleRate : Rat
  mFormatID : Nat
  mFormatFlags : Nat
  mBytesPerPacket : Nat
  mFramesPerPacket : Nat
  mBytesPerFrame : Nat
  mChannelsPerFrame : Nat
  mBitsPerChannel : Nat
  mReserved : Nat
deriving DecidableEq, Repr

/-- Embedding of `asbds_are_equal`: sample rates are compared after `as u32`
truncation, every other field (except the reserved padding) exactly. -/
def asbds_are_equal (left right : AudioStreamBasicDescription) : Bool :=
  (f64_as_u32 left.mSampleRate == f64_as_u32 right.mSampleRate)
    && (left.mFormatID == right.mFormatID)
    && (left.mFormatFlags == right.mFormatFlags)
    && (left.mBytesPerPacket == right.mBytesPerPacket)
    && (left.mFramesPerPacket == right.mFramesPerPacket)
    && (left.mBytesPerFrame == right.mBytesPerFrame)
    && (left.mChannelsPerFrame == right.mChannelsPerFrame)
    && (left.mBitsPerChannel == right.mBitsPerChannel)

/-- Embedding of the `RateListener` struct.  The `Mutex<VecDeque<f64>>` queue is
a list (front = oldest), the optional `Sender<f64>` delivery channel and the
optional registered callback pointer are embedded as `Option Unit` (only their
presence is observable to the embedded code). -/
structure RateListener where
  queue : List Rat
  sync_channel : Option Unit
  device_id : Nat
  property_address : AudioObjectPropertyAddress
  rate_listener : Option Unit
deriving DecidableEq, Repr

/-- Embedding of `RateListener::new`: builds the nominal-sample-rate property
address, an empty queue, and no registered callback; it touches no hardware and
always returns `Ok`. -/
def RateListener.new (device_id : Nat) (sync_channel : Option Unit) :
    Except Err RateListener :=
  Except.ok
    { queue := []
      sync_channel := sync_channel
      device_id := device_id
      property_address :=
        { mSelector := kAudioDevicePropertyNominalSampleRate
          mScope := kAudioObjectPropertyScopeGlobal
          mElement := kAudioObjectPropertyElementMaster }
      rate_listener := none }

/-- Embedding of the notification callback `rate_listener` defined inside
`RateListener::register`.  The callback re-reads the current nominal sample
rate (the re-read value and its status are inputs here) and either sends it on
the delivery channel, when one was supplied at construction, or pushes it at
the tail of the internal queue.  Output: the updated listener state, the value
sent on the channel (if any), and the status the callback returns. -/
def rate_listener (self : RateListener) (rate : Rat) (readStatus : Int) :
    RateListener × Option Rat × Int :=
  match self.sync_channel with
  | some _ => (self, some rate, readStatus)
  | none => ({ self with queue := self.queue ++ [rate] }, none, readStatus)

/-- Embedding of `RateListener::register`: issues the platform
`AudioObjectAddPropertyListener` call (its status is an input); on success the
callback pointer is recorded, on failure the state is unchanged and the mapped
error is returned. -/
def RateListener.register (self : RateListener) (addStatus : Int) :
    Except Err Unit × RateListener :=
  match from_os_status addStatus with
  | Except.error e => (Except.error e, self)
  | Except.ok _ => (Except.ok (), { self with rate_listener := some () })

/-- Embedding of `RateListener::unregister`: when a callback is registered,
issues `AudioObjectRemovePropertyListener` (status is an input); on success the
callback pointer is cleared, on failure the state is unchanged and the mapped
error is returned.  When nothing is registered it succeeds without any
platform call.  The third component records whether the platform removal call
was issued. -/
def RateListener.unregister (self : RateListener) (removeStatus : Int) :
    Except Err Unit × RateListener × Bool :=
  if self.rate_listener.isSome then
    match from_os_status removeStatus with
    | Except.error e => (Except.error e, self, true)
    | Except.ok _ => (Except.ok (), { self with rate_listener := none }, true)
  else (Except.ok (), self, false)

/-- Embedding of `Drop for RateListener`: `let _ = self.unregister();` — the
unregister result is discarded, so no error escapes.  Output: the final state
and whether the platform removal call was issued. -/
def RateListener.drop (self : RateListener) (removeStatus : Int) :
    RateListener × Bool :=
  (self.unregister removeStatus).2

/-- Embedding of `RateListener::get_nbr_values`. -/
def RateListener.get_nbr_values (self : RateListener) : Nat :=
  self.queue.length

/-- Embedding of `RateListener::copy_values`: snapshot of the queue, oldest
first, without mutation. -/
def RateListener.copy_values (self : RateListener) : List Rat :=
  self.queue

/-- Embedding of `RateListener::drain_values`: all queued values, oldest first,
together with the emptied listener state. -/
def RateListener.drain_values (self : RateListener) : List Rat × RateListener :=
  (self.queue, { self with queue := [] })

/-- Runs the notification callback once per value of `rates` (each value being
what the callback re-reads from the device, status 0), collecting the values
sent on the delivery channel in order. -/
def notifyAll (self : RateListener) : List Rat → RateListener × List Rat
  | [] => (self, [])
  | r :: rest =>
    let step := rate_listener self r 0
    let tail := notifyAll step.1 rest
    match step.2.1 with
    | some v => (tail.1, v :: tail.2)
    | none => (tail.1, tail.2)

/-- One platform call issued by the reconfiguration protocol, keyed by property
selector.  `addListener` records whether the registered listener was bound to a
dedicated delivery channel at construction. -/
inductive PCall where
  | getData (selector : Nat)
  | getDataSize (selector : Nat)
  | setData (selector : Nat)
  | addListener (channelBound : Bool)
  | removeListener
deriving DecidableEq, Repr

/-- One iteration of the rate wait loop: the outcome of
`receiver.recv_timeout(100ms)` (`none` = timed out) and the value of
`timer.elapsed()` in milliseconds at the deadline check of this iteration. -/
structure RateWaitIter where
  recvResult : Option Rat
  elapsedMs : Nat
deriving DecidableEq, Repr

/-- The platform's responses consumed by one `set_device_sample_rate` call:
statuses of the four platform calls, the current nominal rate read first, the
supported rate ranges, and the sequence of wait-loop iterations. -/
structure RatePlatform where
  getRateStatus : Int
  currentRate : Rat
  getRangesSizeStatus : Int
  getRangesStatus : Int
  ranges : List AudioValueRange
  registerStatus : Int
  setStatus : Int
  recvTrace : List RateWaitIter
deriving DecidableEq, Repr

/-- Embedding of the wait loop of `set_device_sample_rate`: on a received value
whose `as usize` truncation equals the requested rate's, break with success;
otherwise, once `timer.elapsed()` exceeds one second, fail with the
unsupported-sample-rate error; otherwise iterate.  `none` means the supplied
trace ended with the loop still running. -/
def rateWaitLoop (new_rate : Rat) : List RateWaitIter → Option (Except Err Unit)
  | [] => none
  | it :: rest =>
    match it.recvResult with
    | some reported =>
      if f64_as_usize new_rate = f64_as_usize reported then some (Except.ok ())
      else if 1000 < it.elapsedMs then some (Except.error Err.unsupportedSampleRate)
      else rateWaitLoop new_rate rest
    | none =>
      if 1000 < it.elapsedMs then some (Except.error Err.unsupportedSampleRate)
      else rateWaitLoop new_rate rest

/-- Embedding of Rust `Iterator::position`: index of the first element
satisfying the predicate. -/
def position (pred : AudioValueRange → Bool) : List AudioValueRange → Option Nat
  | [] => none
  | r :: rest =>
    if pred r then some 0 else Option.map (fun i => i + 1) (position pred rest)

/-- The platform removal call issued by the listener's scope-exit drop: present
exactly when a callback is still registered. -/
def dropCalls (self : RateListener) : List PCall :=
  if self.rate_listener.isSome then [PCall.removeListener] else []

/-- Embedding of `set_device_sample_rate`.  Output: the call's result (`none`
means the wait loop was still running when the supplied trace ended) and the
ordered log of platform calls issued. -/
def set_device_sample_rate (device_id : Nat) (new_rate : Rat) (p : RatePlatform) :
    Option (Except Err Unit) × List PCall :=
  match from_os_status p.getRateStatus with
  | Except.error e =>
    (some (Except.error e), [PCall.getData kAudioDevicePropertyNominalSampleRate])
  | Except.ok _ =>
    if f64_as_u32 p.currentRate ≠ f64_as_u32 new_rate then
      match from_os_status p.getRangesSizeStatus with
      | Except.error e =>
        (some (Except.error e),
          [PCall.getData kAudioDevicePropertyNominalSampleRate,
           PCall.getDataSize kAudioDevicePropertyAvailableNominalSampleRates])
      | Except.ok _ =>
        match from_os_status p.getRangesStatus with
        | Except.error e =>
          (some (Except.error e),
            [PCall.getData kAudioDevicePropertyNominalSampleRate,
             PCall.getDataSize kAudioDevicePropertyAvailableNominalSampleRates,
             PCall.getData kAudioDevicePropertyAvailableNominalSampleRates])
        | Except.ok _ =>
          let new_rate_integer := f64_as_u32 new_rate
          match position
              (fun r =>
                f64_as_u32 r.mMinimum == new_rate_integer
                  && f64_as_u32 r.mMaximum == new_rate_integer)
              p.ranges with
          | none =>
            (some (Except.error Err.unsupportedSampleRate),
              [PCall.getData kAudioDevicePropertyNominalSampleRate,
               PCall.getDataSize kAudioDevicePropertyAvailableNominalSampleRates,
               PCall.getData kAudioDevicePropertyAvailableNominalSampleRates])
          | some _ =>
            match RateListener.new device_id (some ()) with
            | Except.error e =>
              (some (Except.error e),
                [PCall.getData kAudioDevicePropertyNominalSampleRate,
                 PCall.getDataSize kAudioDevicePropertyAvailableNominalSampleRates,
                 PCall.getData kAudioDevicePropertyAvailableNominalSampleRates])
            | Except.ok listener =>
              match RateListener.register listener p.registerStatus with
              | (Except.error e, listener1) =>
                (some (Except.error e),
                  [PCall.getData kAudioDevicePropertyNominalSampleRate,
                   PCall.getDataSize kAudioDevicePropertyAvailableNominalSampleRates,
                   PCall.getData kAudioDevicePropertyAvailableNominalSampleRates,
                   PCall.addListener listener1.sync_channel.isSome]
                    ++ dropCalls listener1)
              | (Except.ok _, listener1) =>
                match from_os_status p.setStatus with
                | Except.error e =>
                  (some (Except.error e),
                    [PCall.getData kAudioDevicePropertyNominalSampleRate,
                     PCall.getDataSize kAudioDevicePropertyAvailableNominalSampleRates,
                     PCall.getData kAudioDevicePropertyAvailableNominalSampleRates,
                     PCall.addListener listener1.sync_channel.isSome,
                     PCall.setData kAudioDevicePropertyNominalSampleRate]
                      ++ dropCalls listener1)
                | Except.ok _ =>
                  match rateWaitLoop new_rate p.recvTrace with
                  | none =>
                    (none,
                      [PCall.getData kAudioDevicePropertyNominalSampleRate,
                       PCall.getDataSize kAudioDevicePropertyAvailableNominalSampleRates,
                       PCall.getData kAudioDevicePropertyAvailableNominalSampleRates,
                       PCall.addListener listener1.sync_channel.isSome,
                       PCall.setData kAudioDevicePropertyNominalSampleRate])
                  | some res =>
                    (some res,
                      [PCall.getData kAudioDevicePropertyNominalSampleRate,
                       PCall.getDataSize kAudioDevicePropertyAvailableNominalSampleRates,
                       PCall.getData kAudioDevicePropertyAvailableNominalSampleRates,
                       PCall.addListener listener1.sync_channel.isSome,
                       PCall.setData kAudioDevicePropertyNominalSampleRate]
                        ++ dropCalls listener1)
    else (some (Except.ok ()), [PCall.getData kAudioDevicePropertyNominalSampleRate])

/-- One iteration of the format wait loop: the status and value of the re-read
of the physical format, and the value of `timer.elapsed()` in milliseconds at
the deadline check of this iteration (the check follows the 5 ms sleep). -/
structure FormatPollIter where
  getStatus : Int
  reported : AudioStreamBasicDescription
  elapsedMs : Nat
deriving DecidableEq, Repr

/-- The platform's responses consumed by one `set_device_sample_format` call. -/
structure FormatPlatform where
  getStatus : Int
  currentAsbd : AudioStreamBasicDescription
  setStatus : Int
  pollTrace : List FormatPollIter
deriving DecidableEq, Repr

/-- Embedding of the wait loop of `set_device_sample_format`: each iteration
re-reads the physical format (a `getData` platform call); a failing read
propagates its error, a read equal to the requested descriptor (per
`asbds_are_equal`) breaks with success, and once `timer.elapsed()` exceeds one
second the loop fails with the unsupported-sample-rate error.  Also returns
the log of re-read calls; `none` means the supplied trace ended with the loop
still running. -/
def formatWaitLoop (new_asbd : AudioStreamBasicDescription) :
    List FormatPollIter → Option (Except Err Unit) × List PCall
  | [] => (none, [])
  | it :: rest =>
    match from_os_status it.getStatus with
    | Except.error e =>
      (some (Except.error e), [PCall.getData kAudioStreamPropertyPhysicalFormat])
    | Except.ok _ =>
      if asbds_are_equal it.reported new_asbd then
        (some (Except.ok ()), [PCall.getData kAudioStreamPropertyPhysicalFormat])
      else if 1000 < it.elapsedMs then
        (some (Except.error Err.unsupportedSampleRate),
          [PCall.getData kAudioStreamPropertyPhysicalFormat])
      else
        let tail := formatWaitLoop new_asbd rest
        (tail.1, PCall.getData kAudioStreamPropertyPhysicalFormat :: tail.2)

/-- Embedding of `set_device_sample_format`.  Output: the call's result and the
ordered log of platform calls issued.  The source constructs no listener here:
after issuing the set it re-reads the physical format in a sleep-poll loop. -/
def set_device_sample_format (device_id : Nat)
    (new_asbd : AudioStreamBasicDescription) (p : FormatPlatform) :
    Option (Except Err Unit) × List PCall :=
  match from_os_status p.getStatus with
  | Except.error e =>
    (some (Except.error e), [PCall.getData kAudioStreamPropertyPhysicalFormat])
  | Except.ok _ =>
    if asbds_are_equal p.currentAsbd new_asbd then
      (some (Except.ok ()), [PCall.getData kAudioStreamPropertyPhysicalFormat])
    else
      match from_os_status p.setStatus with
      | Except.error e =>
        (some (Except.error e),
          [PCall.getData kAudioStreamPropertyPhysicalFormat,
           PCall.setData kAudioStreamPropertyPhysicalFormat])
      | Except.ok _ =>
        let tail := formatWaitLoop new_asbd p.pollTrace
        (tail.1,
          [PCall.getData kAudioStreamPropertyPhysicalFormat,
           PCall.setData kAudioStreamPropertyPhysicalFormat] ++ tail.2)

/-- The sample rate 44100.9 Hz, as reported by hardware with sub-Hz jitter. -/
def rateJitterHigh : Rat := ⟨441009, 10, by decide, by decide⟩

/-- The sample rate 44100.2 Hz, as reported by hardware with sub-Hz jitter. -/
def rateJitterLow : Rat := ⟨220501, 5, by decide, by decide⟩

/-- The sample rate 44100.5 Hz. -/
def rateHalf : Rat := ⟨88201, 2, by decide, by decide⟩

/-- A 2-channel 32-bit float descriptor at 44100.9 Hz. -/
def asbdA : AudioStreamBasicDescription :=
  { mSampleRate := rateJitterHigh, mFormatID := 1819304813, mFormatFlags := 9,
    mBytesPerPacket := 8, mFramesPerPacket := 1, mBytesPerFrame := 8,
    mChannelsPerFrame := 2, mBitsPerChannel := 32, mReserved := 0 }

/-- The same descriptor at exactly 44101 Hz: 0.1 Hz above `asbdA`. -/
def asbdB : AudioStreamBasicDescription := { asbdA with mSampleRate := 44101 }

/-- The same descriptor at 44100.4 Hz: within 1 Hz of `asbdA` on the same
integer-Hz bucket. -/
def asbdC : AudioStreamBasicDescription := { asbdA with mSampleRate := rateJitterLow }

/-- A platform scenario for the rate protocol: current rate 44100.5 Hz, two
discrete supported rates, all platform calls succeeding, and one confirmation
notification at 48000 Hz after 50 ms. -/
def rpHappy : RatePlatform :=
  { getRateStatus := 0, currentRate := rateHalf, getRangesSizeStatus := 0,
    getRangesStatus := 0,
    ranges := [{ mMinimum := 44100, mMaximum := 44100 },
               { mMinimum := 48000, mMaximum := 48000 }],
    registerStatus := 0, setStatus := 0,
    recvTrace := [{ recvResult := some 48000, elapsedMs := 50 }] }

/-- The same scenario but with no matching confirmation arriving: a timeout
recv, then an irrelevant 44100 Hz notification after the deadline. -/
def rpStalled : RatePlatform :=
  { rpHappy with
    recvTrace := [{ recvResult := none, elapsedMs := 500 },
                  { recvResult := some 44100, elapsedMs := 1200 }] }

/-- A platform scenario for the format protocol: current format `asbdA`, all
calls succeeding, with the first re-read already reporting the new format. -/
def fpHappy : FormatPlatform :=
  { getStatus := 0, currentAsbd := asbdA, setStatus := 0,
    pollTrace := [{ getStatus := 0, reported := asbdB, elapsedMs := 7 }] }

/-- The same scenario but the device keeps reporting the old format until the
deadline passes. -/
def fpStalled : FormatPlatform :=
  { fpHappy with
    pollTrace := [{ getStatus := 0, reported := asbdA, elapsedMs := 400 },
                  { getStatus := 0, reported := asbdA, elapsedMs := 1100 }] }

/-- The nominal-sample-rate property address built by `RateListener::new`. -/
def nominalRateAddress : AudioObjectPropertyAddress :=
  { mSelector := kAudioDevicePropertyNominalSampleRate
    mScope := kAudioObjectPropertyScopeGlobal
    mElement := kAudioObjectPropertyElementMaster }

/-- A freshly constructed, unregistered polling-mode listener for device 3. -/
def listenerUnregistered : RateListener :=
  { queue := [], sync_channel := none, device_id := 3,
    property_address := nominalRateAddress, rate_listener := none }

/-- The same listener after a successful registration. -/
def listenerRegistered : RateListener :=
  { listenerUnregistered with rate_listener := some () }

/-- A `position` search over a list with no satisfying element returns `none`. -/
theorem position_eq_none_of_all {pred : AudioValueRange → Bool} :
    ∀ {l : List AudioValueRange}, (∀ r ∈ l, pred r = false) →
      position pred l = none := by
  intro l
  induction l with
  | nil => intro _; rfl
  | cons r rest ih =>
    intro h
    have hr : pred r = false := h r (List.mem_cons_self r rest)
    have hrest := ih fun x hx => h x (List.mem_cons_of_mem r hx)
    simp [position, hr, hrest]

/-- A `position` search over a list holding a satisfying element returns an
index. -/
theorem position_isSome_of_mem {pred : AudioValueRange → Bool} :
    ∀ {l : List AudioValueRange}, (∃ r ∈ l, pred r = true) →
      ∃ i, position pred l = some i := by
  intro l
  induction l with
  | nil => rintro ⟨r, hr, _⟩; cases hr
  | cons r rest ih =>
    rintro ⟨x, hx, hpx⟩
    by_cases hr : pred r = true
    · exact ⟨0, by simp [position, hr]⟩
    · rcases List.mem_cons.mp hx with hxr | hxrest
      · exact absurd (hxr ▸ hpx) hr
      · rcases ih ⟨x, hxrest, hpx⟩ with ⟨i, hi⟩
        exact ⟨i + 1, by simp [position, hr, hi]⟩

/-- If no received value matches the requested rate after `as usize`
truncation and some iteration's elapsed time exceeds one second, the rate wait
loop reports the unsupported-sample-rate error. -/
theorem rateWaitLoop_times_out {new_rate : Rat} :
    ∀ {tr : List RateWaitIter},
      (∀ it ∈ tr, ∀ v, it.recvResult = some v →
        f64_as_usize new_rate ≠ f64_as_usize v) →
      (∃ it ∈ tr, 1000 < it.elapsedMs) →
      rateWaitLoop new_rate tr = some (Except.error Err.unsupportedSampleRate) := by
  intro tr
  induction tr with
  | nil => rintro _ ⟨it, hit, _⟩; cases hit
  | cons it rest ih =>
    intro hnomatch hlate
    have hhead := hnomatch it (List.mem_cons_self it rest)
    have htail := fun x hx => hnomatch x (List.mem_cons_of_mem it hx)
    rcases hv : it.recvResult with _ | v
    · by_cases hel : 1000 < it.elapsedMs
      · simp [rateWaitLoop, hv, hel]
      · rcases hlate with ⟨x, hx, hxel⟩
        rcases List.mem_cons.mp hx with hxit | hxrest
        · exact absurd (hxit ▸ hxel) hel
        · simp [rateWaitLoop, hv, hel, ih htail ⟨x, hxrest, hxel⟩]
    · have hne := hhead v hv
      by_cases hel : 1000 < it.elapsedMs
      · simp [rateWaitLoop, hv, hne, hel]
      · rcases hlate with ⟨x, hx, hxel⟩
        rcases List.mem_cons.mp hx with hxit | hxrest
        · exact absurd (hxit ▸ hxel) hel
        · simp [rateWaitLoop, hv, hne, hel, ih htail ⟨x, hxrest, hxel⟩]

/-- If every re-read of the physical format succeeds but never matches the
requested descriptor and some iteration's elapsed time exceeds one second, the
format wait loop reports the unsupported-sample-rate error. -/
theorem formatWaitLoop_times_out {new_asbd : AudioStreamBasicDescription} :
    ∀ {tr : List FormatPollIter},
      (∀ it ∈ tr, from_os_status it.getStatus = Except.ok () ∧
        asbds_are_equal it.reported new_asbd = false) →
      (∃ it ∈ tr, 1000 < it.elapsedMs) →
      (formatWaitLoop new_asbd tr).1 =
        some (Except.error Err.unsupportedSampleRate) := by
  intro tr
  induction tr with
  | nil => rintro _ ⟨it, hit, _⟩; cases hit
  | cons it rest ih =>
    intro hiters hlate
    rcases hiters it (List.mem_cons_self it rest) with ⟨hok, hne⟩
    have htail := fun x hx => hiters x (List.mem_cons_of_mem it hx)
    by_cases hel : 1000 < it.elapsedMs
    · simp [formatWaitLoop, hok, hne, hel]
    · rcases hlate with ⟨x, hx, hxel⟩
      rcases List.mem_cons.mp hx with hxit | hxrest
      · exact absurd (hxit ▸ hxel) hel
      · simp [formatWaitLoop, hok, hne, hel, ih htail ⟨x, hxrest, hxel⟩]

/-- The format wait loop issues only property re-reads: no listener
registration ever appears in its call log. -/
theorem formatWaitLoop_only_getData {new_asbd : AudioStreamBasicDescription} :
    ∀ {tr : List FormatPollIter} {b : Bool},
      PCall.addListener b ∉ (formatWaitLoop new_asbd tr).2 := by
  intro tr
  induction tr with
  | nil => intro b; simp [formatWaitLoop]
  | cons it rest ih =>
    intro b
    rcases hst : from_os_status it.getStatus with e | u
    · simp [formatWaitLoop, hst]
    · by_cases heq : asbds_are_equal it.reported new_asbd
      · simp [formatWaitLoop, hst, heq]
      · by_cases hel : 1000 < it.elapsedMs
        · simp [formatWaitLoop, hst, heq, hel]
        · simpa [formatWaitLoop, hst, heq, hel] using ih

/-- Folding the notification callback over a polling-mode listener (no
delivery channel) appends every value at the tail of the queue, in arrival
order, and sends nothing. -/
theorem notifyAll_queueing :
    ∀ (vs : List Rat) (l : RateListener), l.sync_channel = none →
      notifyAll l vs = ({ l with queue := l.queue ++ vs }, []) := by
  intro vs
  induction vs with
  | nil => intro l hch; simp [notifyAll]
  | cons v rest ih =>
    intro l hch
    have hstep : rate_listener l v 0 =
        ({ l with queue := l.queue ++ [v] }, none, 0) := by
      simp [rate_listener, hch]
    have hrest := ih { l with queue := l.queue ++ [v] } hch
    simp [notifyAll, hstep, hrest]

/-- Folding the notification callback over a channel-mode listener sends every
value, in arrival order, and leaves the listener state (hence the queue)
untouched. -/
theorem notifyAll_channeling :
    ∀ (vs : List Rat) (l : RateListener), l.sync_channel = some () →
      notifyAll l vs = (l, vs) := by
  intro vs
  induction vs with
  | nil => intro l hch; simp [notifyAll]
  | cons v rest ih =>
    intro l hch
    have hstep : rate_listener l v 0 = (l, some v, 0) := by
      simp [rate_listener, hch]
    simp [notifyAll, hstep, ih l hch]

/-- When the requested rate differs from the current one, a matching range
exists, and every platform call up to the set succeeds,
`set_device_sample_rate` registers a channel-bound listener, issues the set,
and its outcome is exactly the wait loop's outcome over the notification
channel; the listener's drop issues the removal once the loop finishes. -/
theorem set_rate_wait_phase {device_id : Nat} {new_rate : Rat} {p : RatePlatform}
    (h1 : from_os_status p.getRateStatus = Except.ok ())
    (h2 : f64_as_u32 p.currentRate ≠ f64_as_u32 new_rate)
    (h3 : from_os_status p.getRangesSizeStatus = Except.ok ())
    (h4 : from_os_status p.getRangesStatus = Except.ok ())
    (h5 : ∃ r ∈ p.ranges, f64_as_u32 r.mMinimum = f64_as_u32 new_rate ∧
        f64_as_u32 r.mMaximum = f64_as_u32 new_rate)
    (h6 : from_os_status p.registerStatus = Except.ok ())
    (h7 : from_os_status p.setStatus = Except.ok ()) :
    set_device_sample_rate device_id new_rate p =
      (rateWaitLoop new_rate p.recvTrace,
        [PCall.getData kAudioDevicePropertyNominalSampleRate,
         PCall.getDataSize kAudioDevicePropertyAvailableNominalSampleRates,
         PCall.getData kAudioDevicePropertyAvailableNominalSampleRates,
         PCall.addListener true,
         PCall.setData kAudioDevicePropertyNominalSampleRate]
          ++ (if (rateWaitLoop new_rate p.recvTrace).isSome then
                [PCall.removeListener] else [])) := by
  have h5b : ∃ r ∈ p.ranges,
      (f64_as_u32 r.mMinimum == f64_as_u32 new_rate
        && f64_as_u32 r.mMaximum == f64_as_u32 new_rate) = true := by
    rcases h5 with ⟨r, hr, hmin, hmax⟩
    exact ⟨r, hr, by simp [hmin, hmax]⟩
  rcases position_isSome_of_mem h5b with ⟨i, hi⟩
  rcases hl : rateWaitLoop new_rate p.recvTrace with _ | res
  · simp [set_device_sample_rate, h1, h2, h3, h4, hi, h6, h7, hl,
      RateListener.new, RateListener.register]
  · simp [set_device_sample_rate, h1, h2, h3, h4, hi, h6, h7, hl,
      RateListener.new, RateListener.register, dropCalls]

/-- C1 (counterexample): at a concrete input whose desired format differs from
the current one, `set_device_sample_format` issues the platform set call and
succeeds with a call log holding no listener registration at all — refuting
the claim that both reconfiguration functions register a channel-bound
listener before the set call. -/
theorem c1_format_counterexample :
    asbds_are_equal fpHappy.currentAsbd asbdB = false ∧
    set_device_sample_format 53 asbdB fpHappy =
      (some (Except.ok ()),
        [PCall.getData kAudioStreamPropertyPhysicalFormat,
         PCall.setData kAudioStreamPropertyPhysicalFormat,
         PCall.getData kAudioStreamPropertyPhysicalFormat]) :=
  ⟨rfl, rfl⟩

/-- C1 (amended): only `set_device_sample_rate` follows the listener protocol:
whenever the desired rate differs, a matching range exists, and the platform
calls succeed, it registers a listener bound to a dedicated delivery channel
(`addListener true`) strictly before the set call and its outcome is that of
blocking on the channel (the wait loop over the received notifications);
`set_device_sample_format` never registers a listener — it re-reads the
property in a polling loop instead. -/
theorem c1_only_rate_protocol_registers_listener :
    (∀ (device_id : Nat) (new_rate : Rat) (p : RatePlatform),
      from_os_status p.getRateStatus = Except.ok () →
      f64_as_u32 p.currentRate ≠ f64_as_u32 new_rate →
      from_os_status p.getRangesSizeStatus = Except.ok () →
      from_os_status p.getRangesStatus = Except.ok () →
      (∃ r ∈ p.ranges, f64_as_u32 r.mMinimum = f64_as_u32 new_rate ∧
        f64_as_u32 r.mMaximum = f64_as_u32 new_rate) →
      from_os_status p.registerStatus = Except.ok () →
      from_os_status p.setStatus = Except.ok () →
      set_device_sample_rate device_id new_rate p =
        (rateWaitLoop new_rate p.recvTrace,
          [PCall.getData kAudioDevicePropertyNominalSampleRate,
           PCall.getDataSize kAudioDevicePropertyAvailableNominalSampleRates,
           PCall.getData kAudioDevicePropertyAvailableNominalSampleRates,
           PCall.addListener true,
           PCall.setData kAudioDevicePropertyNominalSampleRate]
            ++ (if (rateWaitLoop new_rate p.recvTrace).isSome then
                  [PCall.removeListener] else []))) ∧
    (∀ (device_id : Nat) (new_asbd : AudioStreamBasicDescription)
        (fp : FormatPlatform) (b : Bool),
      PCall.addListener b ∉ (set_device_sample_format device_id new_asbd fp).2) := by
  constructor
  · intro device_id new_rate p h1 h2 h3 h4 h5 h6 h7
    exact set_rate_wait_phase h1 h2 h3 h4 h5 h6 h7
  · intro device_id new_asbd fp b
    rcases hst : from_os_status fp.getStatus with e | u
    · simp [set_device_sample_format, hst]
    · by_cases heq : asbds_are_equal fp.currentAsbd new_asbd
      · simp [set_device_sample_format, hst, heq]
      · rcases hset : from_os_status fp.setStatus with e | u2
        · simp [set_device_sample_format, hst, heq, hset]
        · simp [set_device_sample_format, hst, heq, hset,
            formatWaitLoop_only_getData]

/-- C1 (witness): the amended theorem applied to the concrete happy-path
scenarios. -/
theorem c1_witness :
    set_device_sample_rate 7 48000 rpHappy =
      (some (Except.ok ()),
        [PCall.getData kAudioDevicePropertyNominalSampleRate,
         PCall.getDataSize kAudioDevicePropertyAvailableNominalSampleRates,
         PCall.getData kAudioDevicePropertyAvailableNominalSampleRates,
         PCall.addListener true,
         PCall.setData kAudioDevicePropertyNominalSampleRate,
         PCall.removeListener]) ∧
    PCall.addListener true ∉ (set_device_sample_format 7 asbdB fpHappy).2 := by
  constructor
  · exact (c1_only_rate_protocol_registers_listener.1 7 48000 rpHappy rfl
      (by decide) rfl rfl (by decide) rfl rfl).trans rfl
  · exact c1_only_rate_protocol_registers_listener.2 7 asbdB fpHappy true

/-- C2: when the current value already equals the requested one (integer-Hz
equality for the rate, `asbds_are_equal` for the format), both reconfiguration
calls return success after the single initial property read: no listener
registration and no set call appear in the platform call log. -/
theorem c2_idempotent_reconfiguration :
    (∀ (device_id : Nat) (new_rate : Rat) (p : RatePlatform),
      from_os_status p.getRateStatus = Except.ok () →
      f64_as_u32 p.currentRate = f64_as_u32 new_rate →
      set_device_sample_rate device_id new_rate p =
        (some (Except.ok ()),
          [PCall.getData kAudioDevicePropertyNominalSampleRate])) ∧
    (∀ (device_id : Nat) (new_asbd : AudioStreamBasicDescription)
        (fp : FormatPlatform),
      from_os_status fp.getStatus = Except.ok () →
      asbds_are_equal fp.currentAsbd new_asbd = true →
      set_device_sample_format device_id new_asbd fp =
        (some (Except.ok ()),
          [PCall.getData kAudioStreamPropertyPhysicalFormat])) := by
  constructor
  · intro device_id new_rate p h1 h2
    simp [set_device_sample_rate, h1, h2]
  · intro device_id new_asbd fp h1 h2
    simp [set_device_sample_format, h1, h2]

/-- C2 (witness): requesting 44100 Hz on a device at 44100.5 Hz, and requesting
a descriptor integer-Hz-equal to the current one, both return success with only
the initial read in the call log. -/
theorem c2_witness :
    set_device_sample_rate 9 44100 rpHappy =
      (some (Except.ok ()),
        [PCall.getData kAudioDevicePropertyNominalSampleRate]) ∧
    set_device_sample_format 9 asbdC fpHappy =
      (some (Except.ok ()),
        [PCall.getData kAudioStreamPropertyPhysicalFormat]) :=
  ⟨c2_idempotent_reconfiguration.1 9 44100 rpHappy rfl (by decide),
   c2_idempotent_reconfiguration.2 9 asbdC fpHappy rfl (by decide)⟩

/-- C3: when the requested rate differs from the current one and no supported
range has both endpoints truncating to the requested integer rate,
`set_device_sample_rate` fails with the unsupported-sample-rate error, and the
call log ends at the range fetch: no listener registration and no set call. -/
theorem c3_unsupported_rate_rejected :
    ∀ (device_id : Nat) (new_rate : Rat) (p : RatePlatform),
      from_os_status p.getRateStatus = Except.ok () →
      f64_as_u32 p.currentRate ≠ f64_as_u32 new_rate →
      from_os_status p.getRangesSizeStatus = Except.ok () →
      from_os_status p.getRangesStatus = Except.ok () →
      (∀ r ∈ p.ranges, ¬(f64_as_u32 r.mMinimum = f64_as_u32 new_rate ∧
        f64_as_u32 r.mMaximum = f64_as_u32 new_rate)) →
      set_device_sample_rate device_id new_rate p =
        (some (Except.error Err.unsupportedSampleRate),
          [PCall.getData kAudioDevicePropertyNominalSampleRate,
           PCall.getDataSize kAudioDevicePropertyAvailableNominalSampleRates,
           PCall.getData kAudioDevicePropertyAvailableNominalSampleRates]) := by
  intro device_id new_rate p h1 h2 h3 h4 h5
  have h5b : ∀ r ∈ p.ranges,
      (f64_as_u32 r.mMinimum == f64_as_u32 new_rate
        && f64_as_u32 r.mMaximum == f64_as_u32 new_rate) = false := by
    intro r hr
    have := h5 r hr
    rcases hmin : f64_as_u32 r.mMinimum == f64_as_u32 new_rate with _ | _
    · simp
    · simp only [Bool.true_and]
      rcases hmax : f64_as_u32 r.mMaximum == f64_as_u32 new_rate with _ | _
      · rfl
      · exact absurd ⟨eq_of_beq hmin, eq_of_beq hmax⟩ this
  have hpos := position_eq_none_of_all h5b
  simp [set_device_sample_rate, h1, h2, h3, h4, hpos]

/-- C3 (witness): requesting 96000 Hz on a device at 44100.5 Hz whose supported
set is 44100 and 48000 fails with the unsupported-sample-rate error before any
listener or set call. -/
theorem c3_witness :
    set_device_sample_rate 11 96000 rpHappy =
      (some (Except.error Err.unsupportedSampleRate),
        [PCall.getData kAudioDevicePropertyNominalSampleRate,
         PCall.getDataSize kAudioDevicePropertyAvailableNominalSampleRates,
         PCall.getData kAudioDevicePropertyAvailableNominalSampleRates]) :=
  c3_unsupported_rate_rejected 11 96000 rpHappy rfl (by decide) rfl rfl
    (by decide)

/-- C4: in both reconfiguration calls, when the platform calls up to the set
succeed but no matching confirmation is observed and the one-second deadline
elapses within the supplied trace, the call terminates with the
unsupported-sample-rate error. -/
theorem c4_deadline_elapses_with_error :
    (∀ (device_id : Nat) (new_rate : Rat) (p : RatePlatform),
      from_os_status p.getRateStatus = Except.ok () →
      f64_as_u32 p.currentRate ≠ f64_as_u32 new_rate →
      from_os_status p.getRangesSizeStatus = Except.ok () →
      from_os_status p.getRangesStatus = Except.ok () →
      (∃ r ∈ p.ranges, f64_as_u32 r.mMinimum = f64_as_u32 new_rate ∧
        f64_as_u32 r.mMaximum = f64_as_u32 new_rate) →
      from_os_status p.registerStatus = Except.ok () →
      from_os_status p.setStatus = Except.ok () →
      (∀ it ∈ p.recvTrace, ∀ v, it.recvResult = some v →
        f64_as_usize new_rate ≠ f64_as_usize v) →
      (∃ it ∈ p.recvTrace, 1000 < it.elapsedMs) →
      (set_device_sample_rate device_id new_rate p).1 =
        some (Except.error Err.unsupportedSampleRate)) ∧
    (∀ (device_id : Nat) (new_asbd : AudioStreamBasicDescription)
        (fp : FormatPlatform),
      from_os_status fp.getStatus = Except.ok () →
      asbds_are_equal fp.currentAsbd new_asbd = false →
      from_os_status fp.setStatus = Except.ok () →
      (∀ it ∈ fp.pollTrace, from_os_status it.getStatus = Except.ok () ∧
        asbds_are_equal it.reported new_asbd = false) →
      (∃ it ∈ fp.pollTrace, 1000 < it.elapsedMs) →
      (set_device_sample_format device_id new_asbd fp).1 =
        some (Except.error Err.unsupportedSampleRate)) := by
  constructor
  · intro device_id new_rate p h1 h2 h3 h4 h5 h6 h7 hnomatch hlate
    rw [set_rate_wait_phase h1 h2 h3 h4 h5 h6 h7]
    exact rateWaitLoop_times_out hnomatch hlate
  · intro device_id new_asbd fp h1 h2 h3 hiters hlate
    simp only [set_device_sample_format, h1, h2, h3]
    exact formatWaitLoop_times_out hiters hlate

/-- C4 (witness): the deadline theorem applied to the concrete stalled
scenarios, in which no matching confirmation ever arrives and an iteration
past the one-second deadline exists. -/
theorem c4_witness :
    (set_device_sample_rate 13 48000 rpStalled).1 =
      some (Except.error Err.unsupportedSampleRate) ∧
    (set_device_sample_format 13 asbdB fpStalled).1 =
      some (Except.error Err.unsupportedSampleRate) := by
  constructor
  · refine c4_deadline_elapses_with_error.1 13 48000 rpStalled rfl (by decide)
      rfl rfl (by decide) rfl rfl ?_ ?_
    · intro it hit v hv
      simp only [rpStalled, rpHappy, List.mem_cons, List.not_mem_nil,
        or_false] at hit
      rcases hit with h | h
      · subst h; simp at hv
      · subst h
        have hv2 : (44100 : Rat) = v := by simpa using hv
        subst hv2
        decide
    · exact ⟨{ recvResult := some 44100, elapsedMs := 1200 }, by simp [rpStalled, rpHappy], by decide⟩
  · refine c4_deadline_elapses_with_error.2 13 asbdB fpStalled rfl (by decide)
      rfl ?_ ?_
    · intro it hit
      simp only [fpStalled, fpHappy, List.mem_cons, List.not_mem_nil,
        or_false] at hit
      rcases hit with h | h <;> subst h <;> exact ⟨rfl, by decide⟩
    · exact ⟨{ getStatus := 0, reported := asbdA, elapsedMs := 1100 }, by simp [fpStalled, fpHappy], by decide⟩

/-- C5 (counterexample): `asbdA` (44100.9 Hz) and `asbdB` (44101 Hz) are
identical in every field except the sample rate, their rates differ by 0.1 Hz
— less than 1 Hz — yet `asbds_are_equal` returns false, because the
comparison truncates each rate to an integer and 44100 is not 44101. -/
theorem c5_sub_hz_counterexample :
    asbdA.mSampleRate < asbdB.mSampleRate ∧
    asbdB.mSampleRate - asbdA.mSampleRate < 1 ∧
    asbdA.mFormatID = asbdB.mFormatID ∧
    asbdA.mFormatFlags = asbdB.mFormatFlags ∧
    asbdA.mBytesPerPacket = asbdB.mBytesPerPacket ∧
    asbdA.mFramesPerPacket = asbdB.mFramesPerPacket ∧
    asbdA.mBytesPerFrame = asbdB.mBytesPerFrame ∧
    asbdA.mChannelsPerFrame = asbdB.mChannelsPerFrame ∧
    asbdA.mBitsPerChannel = asbdB.mBitsPerChannel ∧
    asbds_are_equal asbdA asbdB = false := by
  refine ⟨by decide, ?_, rfl, rfl, rfl, rfl, rfl, rfl, rfl, rfl⟩
  have h1 : asbdA.mSampleRate = (441009 : Rat) / 10 := by
    have h2 := Rat.num_div_den asbdA.mSampleRate
    rw [show asbdA.mSampleRate.num = 441009 from rfl,
      show asbdA.mSampleRate.den = 10 from rfl] at h2
    rw [← h2]; norm_num
  have h3 : asbdB.mSampleRate = (44101 : Rat) := rfl
  rw [h1, h3]
  norm_num

/-- C5 (amended): `asbds_are_equal` returns true for two descriptors that are
identical in all fields except the sample rate whenever the two rates truncate
to the same integer Hz value; sub-1 Hz noise is therefore tolerated exactly
when it does not cross an integer boundary. -/
theorem c5_integer_truncation_tolerance :
    ∀ (left right : AudioStreamBasicDescription),
      left.mFormatID = right.mFormatID →
      left.mFormatFlags = right.mFormatFlags →
      left.mBytesPerPacket = right.mBytesPerPacket →
      left.mFramesPerPacket = right.mFramesPerPacket →
      left.mBytesPerFrame = right.mBytesPerFrame →
      left.mChannelsPerFrame = right.mChannelsPerFrame →
      left.mBitsPerChannel = right.mBitsPerChannel →
      f64_as_u32 left.mSampleRate = f64_as_u32 right.mSampleRate →
      asbds_are_equal left right = true := by
  intro left right h1 h2 h3 h4 h5 h6 h7 h8
  simp [asbds_are_equal, h1, h2, h3, h4, h5, h6, h7, h8]

/-- C5 (witness): 44100.9 Hz and 44100.2 Hz differ by 0.7 Hz inside the same
integer bucket, so the comparator accepts the pair. -/
theorem c5_witness : asbds_are_equal asbdA asbdC = true :=
  c5_integer_truncation_tolerance asbdA asbdC rfl rfl rfl rfl rfl rfl rfl
    (by decide)

/-- C6: after delivering the values `vs` to a freshly constructed polling-mode
listener, `copy_values` returns all of them in arrival order while the queue
keeps its length, and `drain_values` returns all of them in arrival order and
leaves the queue empty. -/
theorem c6_copy_preserves_drain_clears :
    ∀ (device_id : Nat) (vs : List Rat) (l0 lq : RateListener)
      (sent : List Rat),
      RateListener.new device_id none = Except.ok l0 →
      notifyAll l0 vs = (lq, sent) →
      RateListener.copy_values lq = vs ∧
      RateListener.get_nbr_values lq = vs.length ∧
      (RateListener.drain_values lq).1 = vs ∧
      RateListener.get_nbr_values (RateListener.drain_values lq).2 = 0 := by
  intro device_id vs l0 lq sent hnew hrun
  simp only [RateListener.new, Except.ok.injEq] at hnew
  rw [notifyAll_queueing vs l0 (by rw [← hnew]), Prod.mk.injEq] at hrun
  rcases hrun with ⟨hlq, _⟩
  rw [← hlq, ← hnew]
  simp [RateListener.copy_values, RateListener.get_nbr_values,
    RateListener.drain_values]

/-- C6 (witness): three notifications on device 3. -/
theorem c6_witness :
    RateListener.copy_values
        (notifyAll listenerUnregistered [44100, 48000, 44100]).1 =
      [44100, 48000, 44100] ∧
    RateListener.get_nbr_values
        (notifyAll listenerUnregistered [44100, 48000, 44100]).1 = 3 ∧
    (RateListener.drain_values
        (notifyAll listenerUnregistered [44100, 48000, 44100]).1).1 =
      [44100, 48000, 44100] ∧
    RateListener.get_nbr_values
        (RateListener.drain_values
          (notifyAll listenerUnregistered [44100, 48000, 44100]).1).2 = 0 :=
  c6_copy_preserves_drain_clears 3 [44100, 48000, 44100] listenerUnregistered
    (notifyAll listenerUnregistered [44100, 48000, 44100]).1
    (notifyAll listenerUnregistered [44100, 48000, 44100]).2 rfl rfl

/-- C7: `unregister` on a listener with no registered callback succeeds without
issuing the platform removal call and leaves the state unchanged; when a
callback is registered and the platform removal fails, `unregister` returns
the mapped error and leaves the listener still registered, so the call can be
retried. -/
theorem c7_unregister_noop_and_retry :
    ∀ (l : RateListener) (s : Int),
      (l.rate_listener = none →
        RateListener.unregister l s = (Except.ok (), l, false)) ∧
      (∀ e, l.rate_listener.isSome = true → from_os_status s = Except.error e →
        RateListener.unregister l s = (Except.error e, l, true)) := by
  intro l s
  constructor
  · intro hnone
    simp [RateListener.unregister, hnone]
  · intro e hsome herr
    simp [RateListener.unregister, hsome, herr]

/-- C7 (witness): an unregistered listener ignores the platform entirely; a
registered listener facing a failing removal (status -50) keeps its registered
state and surfaces the wrapped status. -/
theorem c7_witness :
    RateListener.unregister listenerUnregistered 0 =
      (Except.ok (), listenerUnregistered, false) ∧
    RateListener.unregister listenerRegistered (-50) =
      (Except.error (Err.unknown (-50)), listenerRegistered, true) :=
  ⟨(c7_unregister_noop_and_retry listenerUnregistered 0).1 rfl,
   (c7_unregister_noop_and_retry listenerRegistered (-50)).2
      (Err.unknown (-50)) rfl rfl⟩

/-- C8: destruction runs `unregister` whatever the state: the platform removal
call is issued exactly when a callback is registered, a successful removal
leaves the final state unregistered, and a failing removal is swallowed — the
drop still returns a plain state instead of propagating the error. -/
theorem c8_drop_always_unregisters :
    ∀ (l : RateListener) (s : Int),
      (RateListener.drop l s).2 = l.rate_listener.isSome ∧
      (from_os_status s = Except.ok () →
        ((RateListener.drop l s).1).rate_listener = none) ∧
      (∀ e, from_os_status s = Except.error e →
        RateListener.drop l s = (l, l.rate_listener.isSome)) := by
  intro l s
  rcases hrl : l.rate_listener with _ | u
  · refine ⟨?_, ?_, ?_⟩ <;>
      simp [RateListener.drop, RateListener.unregister, hrl]
  · rcases hst : from_os_status s with e | u2
    · refine ⟨?_, ?_, ?_⟩ <;>
        simp [RateListener.drop, RateListener.unregister, hrl, hst]
    · refine ⟨?_, ?_, ?_⟩ <;>
        simp [RateListener.drop, RateListener.unregister, hrl, hst]

/-- C8 (witness): dropping a registered listener with a succeeding removal
issues the platform call and ends unregistered; with a failing removal (status
-3) the drop still returns normally, the error swallowed. -/
theorem c8_witness :
    (RateListener.drop listenerRegistered 0).2 = true ∧
    ((RateListener.drop listenerRegistered 0).1).rate_listener = none ∧
    RateListener.drop listenerRegistered (-3) = (listenerRegistered, true) := by
  refine ⟨?_, (c8_drop_always_unregisters listenerRegistered 0).2.1 rfl, ?_⟩
  · exact ((c8_drop_always_unregisters listenerRegistered 0).1).trans rfl
  · exact ((c8_drop_always_unregisters listenerRegistered (-3)).2.2
      (Err.unknown (-3)) rfl).trans rfl

/-- C9: the notification callback of a channel-mode listener always forwards
the re-read value on the channel and never touches the queue; consequently,
over any sequence of notifications, such a listener's queue length stays 0 and
`copy_values` stays empty while every value is delivered on the channel in
order. -/
theorem c9_channel_listener_keeps_queue_empty :
    (∀ (l : RateListener) (v : Rat) (st : Int), l.sync_channel = some () →
      rate_listener l v st = (l, some v, st)) ∧
    (∀ (device_id : Nat) (vs : List Rat) (l0 lq : RateListener)
        (sent : List Rat),
      RateListener.new device_id (some ()) = Except.ok l0 →
      notifyAll l0 vs = (lq, sent) →
      sent = vs ∧ RateListener.get_nbr_values lq = 0 ∧
        RateListener.copy_values lq = []) := by
  constructor
  · intro l v st hch
    simp [rate_listener, hch]
  · intro device_id vs l0 lq sent hnew hrun
    simp only [RateListener.new, Except.ok.injEq] at hnew
    rw [notifyAll_channeling vs l0 (by rw [← hnew]), Prod.mk.injEq] at hrun
    rcases hrun with ⟨hlq, hsent⟩
    rw [← hlq, ← hnew, ← hsent]
    simp [RateListener.get_nbr_values, RateListener.copy_values]

/-- C9 (witness): the channel-mode invariant applied to one concrete callback
invocation and to a concrete three-notification run on device 5. -/
theorem c9_witness :
    rate_listener { listenerUnregistered with sync_channel := some () }
        44100 0 =
      ({ listenerUnregistered with sync_channel := some () }, some 44100, 0) ∧
    ((notifyAll { listenerUnregistered with
        device_id := 5, sync_channel := some () } [44100, 48000]).2 =
          [44100, 48000] ∧
      RateListener.get_nbr_values (notifyAll { listenerUnregistered with
        device_id := 5, sync_channel := some () } [44100, 48000]).1 = 0 ∧
      RateListener.copy_values (notifyAll { listenerUnregistered with
        device_id := 5, sync_channel := some () } [44100, 48000]).1 = []) := by
  constructor
  · exact c9_channel_listener_keeps_queue_empty.1
      { listenerUnregistered with sync_channel := some () } 44100 0 rfl
  · have h := c9_channel_listener_keeps_queue_empty.2 5 [44100, 48000]
      { listenerUnregistered with device_id := 5, sync_channel := some () }
      (notifyAll { listenerUnregistered with
        device_id := 5, sync_channel := some () } [44100, 48000]).1
      (notifyAll { listenerUnregistered with
        device_id := 5, sync_channel := some () } [44100, 48000]).2 rfl rfl
    exact ⟨h.1.symm ▸ rfl, h.2.1, h.2.2⟩

/-- C10: `RateListener::new` is infallible — for every device id and optional
delivery channel it returns `Ok` with a fresh unregistered listener, issuing
no platform call at all. -/
theorem c10_new_is_infallible :
    ∀ (device_id : Nat) (sync_channel : Option Unit),
      ∃ l, RateListener.new device_id sync_channel = Except.ok l ∧
        l.rate_listener = none ∧ l.queue = [] := by
  intro device_id sync_channel
  exact ⟨_, rfl, rfl, rfl⟩
